import Mathlib

/-!
Verification development for the structured-document renderer of the
mail-backend service (`src/ai-services/app.py`, lines 1534-1617).

The renderer is a pure Python function over JSON-shaped data.  We embed it
shallowly: JSON values become the inductive type `Json`, Python dictionaries
become insertion-ordered association lists, and the Python string operations
used by the code (`str.strip`, `str.lower`, `str.title`, `str.replace`,
f-string interpolation via `str()`/`repr()`, truthiness) are modelled
character-by-character for the ASCII range that the renderer's data uses.
JSON numbers are modelled as integers (the code never does arithmetic on
them; they are only tested for truthiness and stringified).
-/

/-- A parsed JSON value, as the Python code receives it: `None`, `bool`,
number, `str`, `list`, or `dict` (insertion-ordered association list). -/
inductive Json where
  | null : Json
  | bool : Bool → Json
  | num : Int → Json
  | str : String → Json
  | list : List Json → Json
  | obj : List (String × Json) → Json

/-- Model of `isinstance(x, bool)`. -/
def Json.isBool : Json → Bool
  | .bool _ => true
  | _ => false

/-- Model of `isinstance(x, list)`. -/
def Json.isList : Json → Bool
  | .list _ => true
  | _ => false

/-- Model of `isinstance(x, dict)`. -/
def Json.isObj : Json → Bool
  | .obj _ => true
  | _ => false

/-- Model of `isinstance(x, str)`. -/
def Json.isStr : Json → Bool
  | .str _ => true
  | _ => false

/-- A scalar JSON value: null, boolean, number or string. -/
def Json.isScalar : Json → Bool
  | .list _ => false
  | .obj _ => false
  | _ => true

/-- Python truthiness of a JSON value: `None`, `False`, `0`, `""`, `[]`
and the empty dict are falsy, everything else is truthy. -/
def pyTruthy : Json → Bool
  | .null => false
  | .bool b => b
  | .num n => !(n == 0)
  | .str s => !(s == "")
  | .list xs => !xs.isEmpty
  | .obj kvs => !kvs.isEmpty

/-- The whitespace characters removed by Python `str.strip()` (ASCII part). -/
def isPySpace (c : Char) : Bool :=
  c == ' ' || c == '\t' || c == '\n' || c == '\x0b' || c == '\x0c' || c == '\r'

/-- Python `str.strip()`: drop leading and trailing whitespace. -/
def pyStrip (s : String) : String :=
  String.mk (((s.data.dropWhile isPySpace).reverse.dropWhile isPySpace).reverse)

/-- Python `str.lower()` (ASCII: the keys and sentinels in play are ASCII). -/
def strLower (s : String) : String :=
  String.mk (s.data.map Char.toLower)

/-- Python `str.replace('_', ' ')`: single-character textual replacement. -/
def replaceUnderscore (s : String) : String :=
  String.mk (s.data.map (fun c => if c == '_' then ' ' else c))

/-- Two lowercase hex digits of a byte, used by Python `repr` escapes. -/
def hexByte (n : Nat) : String :=
  let d : Nat → Char := fun k =>
    if k < 10 then Char.ofNat (48 + k) else Char.ofNat (87 + k)
  String.mk [d (n / 16 % 16), d (n % 16)]

/-- One character of a Python string `repr`, escaped relative to the chosen
quote character. -/
def pyCharEscape (quote : Char) (c : Char) : String :=
  if c == '\\' then "\\\\"
  else if c == quote then "\\" ++ String.mk [quote]
  else if c == '\n' then "\\n"
  else if c == '\r' then "\\r"
  else if c == '\t' then "\\t"
  else if c.toNat < 32 || c.toNat == 127 then "\\x" ++ hexByte c.toNat
  else String.mk [c]

/-- Python `repr` of a string: single-quoted unless the string contains a
single quote and no double quote. -/
def pyStrRepr (s : String) : String :=
  let quote : Char :=
    if s.data.contains '\'' && !(s.data.contains '"') then '"' else '\''
  String.mk [quote] ++ String.join (s.data.map (pyCharEscape quote)) ++ String.mk [quote]

mutual

/-- Python `repr` of a JSON value (used by `str()` on containers, which
calls `repr` on their elements). -/
def pyRepr : Json → String
  | .null => "None"
  | .bool true => "True"
  | .bool false => "False"
  | .num n => toString n
  | .str s => pyStrRepr s
  | .list xs => "[" ++ pyReprList xs ++ "]"
  | .obj kvs => "\x7b" ++ pyReprObj kvs ++ "\x7d"

/-- Model of `", ".join(repr(x) for x in xs)`. -/
def pyReprList : List Json → String
  | [] => ""
  | [x] => pyRepr x
  | x :: y :: rest => pyRepr x ++ ", " ++ pyReprList (y :: rest)

/-- Model of the comma-joined `repr(k): repr(v)` body of a dict repr. -/
def pyReprObj : List (String × Json) → String
  | [] => ""
  | [(k, v)] => pyStrRepr k ++ ": " ++ pyRepr v
  | (k, v) :: kv :: rest => pyStrRepr k ++ ": " ++ pyRepr v ++ ", " ++ pyReprObj (kv :: rest)

end

/-- Python `str()` of a JSON value, as applied by f-string interpolation:
a string is itself, everything else is its `repr`. -/
def pyStr : Json → String
  | .str s => s
  | j => pyRepr j

mutual

/-- Model of `is_section_empty` (app.py:1534-1541): a string is empty when it strips
and lowercases to `"n/a"` or `""`; a list is empty when it has no elements;
a dict is empty when every value is recursively empty; anything else
(`None`, numbers, booleans) falls through to `True`. -/
def is_section_empty : Json → Bool
  | .str s => strLower (pyStrip s) == "n/a" || strLower (pyStrip s) == ""
  | .list xs => xs.isEmpty
  | .obj kvs => sectionValuesEmpty kvs
  | .null => true
  | .bool _ => true
  | .num _ => true

/-- Model of `all(is_section_empty(v) for v in section_data.values())`. -/
def sectionValuesEmpty : List (String × Json) → Bool
  | [] => true
  | (_, v) :: rest => is_section_empty v && sectionValuesEmpty rest

end

/-- Insert a space before every ASCII uppercase letter; the caller skips the
first character, mirroring the regex lookbehind `(?<!^)`. -/
def insertSpacesAux : List Char → List Char
  | [] => []
  | c :: rest =>
    (if c.isUpper then [' ', c] else [c]) ++ insertSpacesAux rest

/-- Model of `re.sub` with pattern `(?<!^)(?=[A-Z])` and a space replacement: a space before every uppercase
letter except at position 0. -/
def insertSpaces (s : String) : String :=
  match s.data with
  | [] => ""
  | c :: rest => String.mk (c :: insertSpacesAux rest)

/-- Python `str.title()`: an alphabetic character is uppercased when the
previous character is not alphabetic, lowercased otherwise (ASCII). -/
def pyTitleAux : Bool → List Char → List Char
  | _, [] => []
  | prevCased, c :: rest =>
    (if c.isAlpha then (if prevCased then c.toLower else c.toUpper) else c)
      :: pyTitleAux c.isAlpha rest

/-- Python `str.title()` on a whole string. -/
def pyTitle (s : String) : String :=
  String.mk (pyTitleAux false s.data)

/-- Model of `format_title` (app.py:1555-1557):
`re.sub(r'(?<!^)(?=[A-Z])', ' ', key_str).replace('_', ' ').title()`. -/
def format_title (keyStr : String) : String :=
  pyTitle (replaceUnderscore (insertSpaces keyStr))

/-- One `<div><strong>...` field line of a dict item inside
`render_list_of_dicts` (app.py:1569-1574): a list-valued field becomes a
nested `<ul>` of its stringified elements, any other value is stringified. -/
def renderField (kv : String × Json) : String :=
  "<div><strong>" ++ format_title kv.1 ++ ":</strong> " ++
    (match kv.2 with
     | .list vs => "<ul>" ++ String.join (vs.map (fun val => "<li>" ++ pyStr val ++ "</li>")) ++ "</ul>"
     | v => pyStr v) ++
    "</div>"

/-- One item of the `<ul class="item-list">` in `render_list_of_dicts`
(app.py:1566-1577): a dict item becomes an item-card of field lines,
anything else a plain stringified `<li>`. -/
def renderItem : Json → String
  | .obj kvs => "<li class=\"item-card\">" ++ String.join (kvs.map renderField) ++ "</li>"
  | item => "<li>" ++ pyStr item ++ "</li>"

/-- Model of `render_list_of_dicts` (app.py:1559-1579).  In source order: a falsy
input returns the N/A placeholder; a dict is wrapped into a one-element
list; a remaining non-list is stringified into a paragraph; a list becomes
an item-list of rendered items. -/
def render_list_of_dicts (items : Json) : String :=
  if !pyTruthy items then "<p><em>N/A</em></p>"
  else
    match (match items with
           | .obj kvs => Json.list [Json.obj kvs]
           | j => j) with
    | .list xs =>
        "<ul class=\"item-list\">" ++ String.join (xs.map renderItem) ++ "</ul>"
    | j => "<p>" ++ pyStr j ++ "</p>"

/-- Model of `render_section_content` (app.py:1581-1595).  A dict emits, per entry,
an `<h5>` sub-heading and then either the N/A paragraph (value falsy and
not a bool) or `render_list_of_dicts(value)`; a list goes straight to
`render_list_of_dicts`; anything else becomes a paragraph, stringified if
truthy and the N/A marker otherwise. -/
def render_section_content : Json → String
  | .obj kvs =>
      String.join (kvs.map (fun kv =>
        "<h5>" ++ format_title kv.1 ++ "</h5>" ++
          (if !pyTruthy kv.2 && !kv.2.isBool then "<p><em>N/A</em></p>"
           else render_list_of_dicts kv.2)))
  | .list xs => render_list_of_dicts (Json.list xs)
  | j => "<p>" ++ (if pyTruthy j then pyStr j else "<em>N/A</em>") ++ "</p>"

/-- The result object of `generate_html_breakdown`: the `breakdown` dict
(insertion-ordered) and the `full_html` string. -/
structure RenderResult where
  breakdown : List (String × String)
  full_html : String
deriving DecidableEq

/-- The main loop of `generate_html_breakdown` (app.py:1600-1610),
accumulating the `html_breakdown` dict and the `full_html_parts` list in
iteration order, skipping entries whose value `is_section_empty`. -/
def ghbLoop : List (String × Json) → List (String × String) → List String →
    List (String × String) × List String
  | [], bd, parts => (bd, parts)
  | (k, v) :: rest, bd, parts =>
    if is_section_empty v then ghbLoop rest bd parts
    else
      ghbLoop rest
        (bd ++ [(k, "<div class=\"summary-container\">" ++ render_section_content v ++ "</div>")])
        (parts ++ ["<h4>" ++ format_title k ++ "</h4>" ++ render_section_content v])

/-- Model of `generate_html_breakdown` (app.py:1546-1617).  A falsy or non-dict
input short-circuits to the "No summary data available." placeholder;
otherwise the main loop runs and `full_html` wraps the joined parts in the
summary-container div. -/
def generate_html_breakdown : Json → RenderResult
  | .obj kvs =>
    if !pyTruthy (Json.obj kvs) then
      ⟨[], "<p>No summary data available.</p>"⟩
    else
      let r := ghbLoop kvs [] []
      ⟨r.1, "<div class=\"summary-container\">" ++ String.join r.2 ++ "</div>"⟩
  | _ => ⟨[], "<p>No summary data available.</p>"⟩

/-- The entries of a top-level dict that survive the emptiness gate, in
insertion order. -/
def keptEntries (l : List (String × Json)) : List (String × Json) :=
  l.filter (fun kv => !is_section_empty kv.2)

/-- The `full_html` fragment contributed by one kept entry: its `<h4>`
heading followed by its rendered content. -/
def sectionPart (kv : String × Json) : String :=
  "<h4>" ++ format_title kv.1 ++ "</h4>" ++ render_section_content kv.2

/-- The `breakdown` entry contributed by one kept entry: its key mapped to
its rendered content wrapped in the summary-container div. -/
def snippetEntry (kv : String × Json) : String × String :=
  (kv.1, "<div class=\"summary-container\">" ++ render_section_content kv.2 ++ "</div>")

example : format_title "executiveSummary" = "Executive Summary" := by decide
example : format_title "key_message" = "Key Message" := by decide
example : format_title "a" = "A" := by decide
example : format_title "" = "" := by decide
example : is_section_empty (Json.str " N/A ") = true := by decide
example : is_section_empty (Json.num 42) = true := by decide
example : is_section_empty (Json.obj [("x", Json.str "N/A"), ("y", Json.list [])]) = true := by decide
example : is_section_empty (Json.obj [("x", Json.str "N/A"), ("y", Json.list [Json.str "hi"])]) = false := by decide

example : generate_html_breakdown (Json.obj []) =
    ⟨[], "<p>No summary data available.</p>"⟩ := by decide
example : generate_html_breakdown (Json.str "oops") =
    ⟨[], "<p>No summary data available.</p>"⟩ := by decide
example : render_list_of_dicts (Json.obj []) = "<p><em>N/A</em></p>" := by decide
example : render_list_of_dicts (Json.bool false) = "<p><em>N/A</em></p>" := by decide
example : render_section_content (Json.obj [("k", Json.bool false)]) =
    "<h5>K</h5><p><em>N/A</em></p>" := by decide
example : render_section_content (Json.obj [("k", Json.obj [("a", Json.num 1)])]) =
    "<h5>K</h5><ul class=\"item-list\"><li class=\"item-card\"><div><strong>A:</strong> 1</div></li></ul>" := by decide
example : generate_html_breakdown
    (Json.obj [("executiveSummary", Json.str "hi"), ("legalImpact", Json.obj [])]) =
    ⟨[("executiveSummary", "<div class=\"summary-container\"><p>hi</p></div>")],
     "<div class=\"summary-container\"><h4>Executive Summary</h4><p>hi</p></div>"⟩ := by decide

/-- The scalar-emptiness predicate exactly as claim C4 words it: empty iff
null, the empty (or whitespace-only) string, or a string case-insensitively
equal to "n/a"; every non-null number and boolean is non-empty. -/
def claimedScalarEmpty : Json → Bool
  | .null => true
  | .str s => pyStrip s == "" || strLower s == "n/a"
  | _ => false

/-- Tests whether a JSON value is the boolean `False`. -/
def isBoolFalse : Json → Bool
  | .bool false => true
  | _ => false

/-- Rendering of records exactly as claim C7 words it: a
field is replaced by the N/A placeholder exactly when its value is falsy
and not boolean `False`; otherwise a list goes to the list renderer and
anything else (boolean `False`, nested records included) is stringified
directly into a paragraph. -/
def claimedRenderSectionContent : Json → String
  | .obj kvs =>
      String.join (kvs.map (fun kv =>
        "<h5>" ++ format_title kv.1 ++ "</h5>" ++
          (if !pyTruthy kv.2 && !isBoolFalse kv.2 then "<p><em>N/A</em></p>"
           else
             match kv.2 with
             | .list vs => render_list_of_dicts (Json.list vs)
             | w => "<p>" ++ pyStr w ++ "</p>")))
  | j => render_section_content j

/-! ### Structural lemmas relating the accumulator loop to its declarative form -/

/-- The main loop appends exactly one breakdown entry and one full-html part
per kept entry, in input order. -/
theorem ghbLoop_spec (kvs : List (String × Json)) :
    ∀ bd parts, ghbLoop kvs bd parts =
      (bd ++ (keptEntries kvs).map snippetEntry,
       parts ++ (keptEntries kvs).map sectionPart) := by
  induction kvs with
  | nil => intro bd parts; simp [ghbLoop, keptEntries]
  | cons kv rest ih =>
    intro bd parts
    obtain ⟨k, v⟩ := kv
    by_cases h : is_section_empty v = true
    · simp [ghbLoop, h, keptEntries, ih, List.filter_cons]
    · simp only [Bool.not_eq_true] at h
      simp [ghbLoop, h, keptEntries, ih, List.filter_cons, snippetEntry, sectionPart,
        List.append_assoc]

/-- On a non-empty dict, `generate_html_breakdown` returns the mapped kept
entries and the container-wrapped join of the section parts. -/
theorem generate_obj_eq (kvs : List (String × Json)) (h : kvs ≠ []) :
    generate_html_breakdown (Json.obj kvs) =
      ⟨(keptEntries kvs).map snippetEntry,
       "<div class=\"summary-container\">" ++
         String.join ((keptEntries kvs).map sectionPart) ++ "</div>"⟩ := by
  simp [generate_html_breakdown, pyTruthy, List.isEmpty_eq_true, h, ghbLoop_spec]

/-- Lookup misses every association list whose keys avoid `k`. -/
theorem lookup_eq_none_of_not_mem {β : Type} (l : List (String × β)) (k : String)
    (h : k ∉ l.map Prod.fst) : l.lookup k = none := by
  induction l with
  | nil => rfl
  | cons kv rest ih =>
    obtain ⟨k', b⟩ := kv
    simp only [List.map_cons, List.mem_cons, not_or] at h
    have hk : (k == k') = false := by
      exact beq_false_of_ne h.1
    simp [List.lookup, hk, ih h.2]

/-- In a list with duplicate-free keys, a key determines its value. -/
theorem nodup_key_eq {β : Type} (l : List (String × β))
    (hnd : (l.map Prod.fst).Nodup) (k : String) (v v' : β)
    (h1 : (k, v) ∈ l) (h2 : (k, v') ∈ l) : v = v' := by
  induction l with
  | nil => cases h1
  | cons kv rest ih =>
    obtain ⟨k', b⟩ := kv
    simp only [List.map_cons, List.nodup_cons] at hnd
    rcases List.mem_cons.mp h1 with e1 | m1
    · rcases List.mem_cons.mp h2 with e2 | m2
      · rw [Prod.mk.injEq] at e1 e2
        exact e1.2.trans e2.2.symm
      · exfalso
        rw [Prod.mk.injEq] at e1
        exact hnd.1 (e1.1 ▸ List.mem_map_of_mem Prod.fst m2)
    · rcases List.mem_cons.mp h2 with e2 | m2
      · exfalso
        rw [Prod.mk.injEq] at e2
        exact hnd.1 (e2.1 ▸ List.mem_map_of_mem Prod.fst m1)
      · exact ih hnd.2 m1 m2

/-! ### Claim theorems -/

/-- Claim C9: `format_title` maps "executiveSummary" to "Executive Summary",
"key_message" to "Key Message", "a" to "A", and the empty string to the
empty string. -/
theorem spec_C9 :
    format_title "executiveSummary" = "Executive Summary" ∧
    format_title "key_message" = "Key Message" ∧
    format_title "a" = "A" ∧
    format_title "" = "" := by decide

/-- Claim C2: for every JSON value as input, `generate_html_breakdown`
returns a result object with a `breakdown` and a `full_html`, the latter
being either the no-data placeholder or a container-wrapped body; the
embedding is a total function, so no input shape raises. -/
theorem spec_C2 (j : Json) :
    ∃ bd fh, generate_html_breakdown j = ⟨bd, fh⟩ ∧
      (fh = "<p>No summary data available.</p>" ∨
       ∃ body, fh = "<div class=\"summary-container\">" ++ body ++ "</div>") := by
  cases j with
  | obj kvs =>
      cases kvs with
      | nil => exact ⟨[], "<p>No summary data available.</p>", rfl, Or.inl rfl⟩
      | cons kv rest => exact ⟨_, _, rfl, Or.inr ⟨_, rfl⟩⟩
  | null => exact ⟨[], _, rfl, Or.inl rfl⟩
  | bool b => exact ⟨[], _, rfl, Or.inl rfl⟩
  | num n => exact ⟨[], _, rfl, Or.inl rfl⟩
  | str s => exact ⟨[], _, rfl, Or.inl rfl⟩
  | list xs => exact ⟨[], _, rfl, Or.inl rfl⟩

/-- Claim C3 counterexample: on the empty record the code returns the
"No summary data available." placeholder as `full_html`, not the bare
empty container wrapper the claim states (the empty dict is falsy in
Python, so it takes the malformed-input branch at app.py:1551). -/
theorem spec_C3_counterexample :
    (generate_html_breakdown (Json.obj [])).full_html =
      "<p>No summary data available.</p>" ∧
    (generate_html_breakdown (Json.obj [])).full_html ≠
      "<div class=\"summary-container\"></div>" := by decide

/-- Claim C3 (amended): for the empty record, `breakdown` is the empty map
and `full_html` is the "No summary data available." placeholder. -/
theorem spec_C3 :
    generate_html_breakdown (Json.obj []) =
      ⟨[], "<p>No summary data available.</p>"⟩ := by decide

/-- Claim C4 counterexample: the code's fallback branch makes every number
and boolean empty, where the claim calls them non-empty. -/
theorem spec_C4_counterexample :
    is_section_empty (Json.num 42) = true ∧
    claimedScalarEmpty (Json.num 42) = false ∧
    is_section_empty (Json.bool true) = true ∧
    claimedScalarEmpty (Json.bool true) = false := by decide

/-- Claim C4 (amended): among scalars, the only non-empty values are
strings whose stripped, lowercased content is neither "" nor "n/a"; null,
every number and every boolean fall into the fail-safe default branch and
are empty. -/
theorem spec_C4 (v : Json) (h : v.isScalar = true) :
    is_section_empty v = false ↔
      ∃ s, v = Json.str s ∧
        strLower (pyStrip s) ≠ "n/a" ∧ strLower (pyStrip s) ≠ "" := by
  cases v with
  | null => simp [is_section_empty]
  | bool b => simp [is_section_empty]
  | num n => simp [is_section_empty]
  | str s =>
      simp only [is_section_empty, Bool.or_eq_false_iff, beq_eq_false_iff_ne, ne_eq,
        Json.str.injEq, exists_eq_left']
  | list xs => simp [Json.isScalar] at h
  | obj kvs => simp [Json.isScalar] at h

/-- Witness for C4 at the non-empty scalar string "hello". -/
theorem spec_C4_witness :
    (Json.str "hello").isScalar = true ∧
    (is_section_empty (Json.str "hello") = false ↔
      ∃ s, Json.str "hello" = Json.str s ∧
        strLower (pyStrip s) ≠ "n/a" ∧ strLower (pyStrip s) ≠ "") :=
  ⟨by decide, spec_C4 (Json.str "hello") (by decide)⟩

/-- Claim C6: every non-dict input yields, without raising, the empty
breakdown and the single "No summary data available." placeholder as
`full_html`. -/
theorem spec_C6 (j : Json) (h : j.isObj = false) :
    generate_html_breakdown j = ⟨[], "<p>No summary data available.</p>"⟩ := by
  cases j with
  | obj kvs => simp [Json.isObj] at h
  | null => rfl
  | bool b => rfl
  | num n => rfl
  | str s => rfl
  | list xs => rfl

/-- Witness for C6 at the bare string "hello". -/
theorem spec_C6_witness :
    (Json.str "hello").isObj = false ∧
    generate_html_breakdown (Json.str "hello") =
      ⟨[], "<p>No summary data available.</p>"⟩ :=
  ⟨by decide, spec_C6 (Json.str "hello") (by decide)⟩

/-- Claim C1: a top-level key whose value is empty contributes nothing:
it is absent from `breakdown`, and `full_html` is exactly the
container-wrapped concatenation of the kept entries' heading-plus-content
parts, among which `k` does not appear. -/
theorem spec_C1 (l : List (String × Json)) (k : String) (v : Json)
    (hnd : (l.map Prod.fst).Nodup) (hmem : (k, v) ∈ l)
    (hemp : is_section_empty v = true) :
    (generate_html_breakdown (Json.obj l)).breakdown.lookup k = none ∧
    (generate_html_breakdown (Json.obj l)).full_html =
      "<div class=\"summary-container\">" ++
        String.join ((keptEntries l).map sectionPart) ++ "</div>" ∧
    k ∉ (keptEntries l).map Prod.fst := by
  have hne : l ≠ [] := by rintro rfl; cases hmem
  have hobj := generate_obj_eq l hne
  have hknotin : k ∉ (keptEntries l).map Prod.fst := by
    intro hk
    obtain ⟨⟨k', v'⟩, hmem', hfst⟩ := List.mem_map.mp hk
    obtain ⟨hmem'', hkeep⟩ := List.mem_filter.mp hmem'
    simp only at hfst
    subst hfst
    have hvv : v = v' := nodup_key_eq l hnd k' v v' hmem hmem''
    rw [← hvv, hemp] at hkeep
    simp at hkeep
  refine ⟨?_, ?_, hknotin⟩
  · rw [hobj]
    apply lookup_eq_none_of_not_mem
    simpa [List.map_map, snippetEntry, Function.comp] using hknotin
  · rw [hobj]

/-- Witness for C1: the key "b" with the empty-string value is omitted from
the render of a two-key record. -/
theorem spec_C1_witness :
    (([("a", Json.str "hi"), ("b", Json.str "")].map Prod.fst).Nodup ∧
     ("b", Json.str "") ∈ [("a", Json.str "hi"), ("b", Json.str "")] ∧
     is_section_empty (Json.str "") = true) ∧
    ((generate_html_breakdown
        (Json.obj [("a", Json.str "hi"), ("b", Json.str "")])).breakdown.lookup "b" = none ∧
     (generate_html_breakdown
        (Json.obj [("a", Json.str "hi"), ("b", Json.str "")])).full_html =
       "<div class=\"summary-container\">" ++
         String.join ((keptEntries [("a", Json.str "hi"), ("b", Json.str "")]).map sectionPart) ++
         "</div>" ∧
     "b" ∉ (keptEntries [("a", Json.str "hi"), ("b", Json.str "")]).map Prod.fst) :=
  ⟨⟨by decide, List.mem_cons_of_mem _ (List.mem_cons_self _ _), by decide⟩,
   spec_C1 _ _ _ (by decide)
     (List.mem_cons_of_mem _ (List.mem_cons_self _ _)) (by decide)⟩

/-- Claim C5: on a non-empty record, `full_html` is the container wrapper
around the concatenation, in insertion order, of one part per non-empty
key, each part being the `<h4>` heading from `format_title` of the key
followed by the rendered section content. -/
theorem spec_C5 (l : List (String × Json)) (h : l ≠ []) :
    (generate_html_breakdown (Json.obj l)).full_html =
      "<div class=\"summary-container\">" ++
        String.join ((keptEntries l).map sectionPart) ++ "</div>" := by
  rw [generate_obj_eq l h]

/-- Witness for C5 on a two-key record with one empty key. -/
theorem spec_C5_witness :
    ([("b", Json.str ""), ("a", Json.str "hi")] : List (String × Json)) ≠ [] ∧
    (generate_html_breakdown
        (Json.obj [("b", Json.str ""), ("a", Json.str "hi")])).full_html =
      "<div class=\"summary-container\">" ++
        String.join ((keptEntries [("b", Json.str ""), ("a", Json.str "hi")]).map sectionPart) ++
        "</div>" :=
  ⟨List.cons_ne_nil _ _, spec_C5 _ (List.cons_ne_nil _ _)⟩

/-- Claim C7 counterexample: for the field value boolean `False` the code
emits the N/A placeholder (through the list renderer's truthiness check)
where the claim prescribes the stringified paragraph `<p>False</p>`; and a
nested record is rendered as an item-card list, not stringified. -/
theorem spec_C7_counterexample :
    render_section_content (Json.obj [("k", Json.bool false)]) =
      "<h5>K</h5><p><em>N/A</em></p>" ∧
    claimedRenderSectionContent (Json.obj [("k", Json.bool false)]) =
      "<h5>K</h5><p>False</p>" ∧
    render_section_content (Json.obj [("k", Json.obj [("a", Json.num 1)])]) ≠
      claimedRenderSectionContent (Json.obj [("k", Json.obj [("a", Json.num 1)])]) := by
  decide

/-- Claim C7 (amended): in `render_section_content` on a record, a field's
value produces the literal N/A placeholder exactly when it is falsy —
boolean `False` included, since the list renderer's own emptiness check
emits the same placeholder — and every truthy value is handed to
`render_list_of_dicts`, which renders a list as an item list, wraps a
record into a one-card list, and stringifies any other value into a
paragraph element. -/
theorem spec_C7 (kvs : List (String × Json)) :
    render_section_content (Json.obj kvs) =
      String.join (kvs.map (fun kv =>
        "<h5>" ++ format_title kv.1 ++ "</h5>" ++
          (if !pyTruthy kv.2 then "<p><em>N/A</em></p>"
           else render_list_of_dicts kv.2))) := by
  simp only [render_section_content]
  refine congrArg String.join (List.map_congr_left fun kv _ => ?_)
  by_cases ht : pyTruthy kv.2 = true
  · simp [ht]
  · simp only [Bool.not_eq_true] at ht
    cases hb : kv.2.isBool
    · simp [ht, hb]
    · simp [ht, hb, render_list_of_dicts]

/-- Claim C8 counterexample: the empty record `{}` is falsy, so
`render_list_of_dicts` returns the N/A placeholder before ever wrapping it
into a one-element list; the claim's predicted one-entry card rendering
does not happen. -/
theorem spec_C8_counterexample :
    render_list_of_dicts (Json.obj []) = "<p><em>N/A</em></p>" ∧
    render_list_of_dicts (Json.obj []) ≠
      "<ul class=\"item-list\"><li class=\"item-card\"></li></ul>" := by decide

/-- Claim C8 (amended): in `render_list_of_dicts` the truthiness check on
the raw input precedes the single-record wrap, so every falsy input — the
empty record included — yields the N/A placeholder, and only a non-empty
record is wrapped into a single-element list (rendering exactly as that
one-element list would). -/
theorem spec_C8 (v : Json) (kvs : List (String × Json))
    (hv : pyTruthy v = false) (hk : kvs ≠ []) :
    render_list_of_dicts v = "<p><em>N/A</em></p>" ∧
    render_list_of_dicts (Json.obj kvs) =
      render_list_of_dicts (Json.list [Json.obj kvs]) := by
  constructor
  · simp [render_list_of_dicts, hv]
  · have ht : pyTruthy (Json.obj kvs) = true := by
      cases kvs with
      | nil => exact absurd rfl hk
      | cons a b => rfl
    have ht2 : pyTruthy (Json.list [Json.obj kvs]) = true := rfl
    simp [render_list_of_dicts, ht, ht2]

/-- Witness for C8 at the falsy empty record and the one-key record. -/
theorem spec_C8_witness :
    (pyTruthy (Json.obj []) = false ∧
     ([("a", Json.num 1)] : List (String × Json)) ≠ []) ∧
    (render_list_of_dicts (Json.obj []) = "<p><em>N/A</em></p>" ∧
     render_list_of_dicts (Json.obj [("a", Json.num 1)]) =
       render_list_of_dicts (Json.list [Json.obj [("a", Json.num 1)]])) :=
  ⟨⟨by decide, List.cons_ne_nil _ _⟩,
   spec_C8 _ _ (by decide) (List.cons_ne_nil _ _)⟩

/-- Claim C10: a record with at least one key whose values are all empty
renders to the empty breakdown and the bare container wrapper — unlike the
empty record `{}`, whose `full_html` is the placeholder. -/
theorem spec_C10 (l : List (String × Json)) (h : l ≠ [])
    (hall : ∀ kv ∈ l, is_section_empty kv.2 = true) :
    generate_html_breakdown (Json.obj l) =
      ⟨[], "<div class=\"summary-container\"></div>"⟩ ∧
    (generate_html_breakdown (Json.obj l)).full_html ≠
      (generate_html_breakdown (Json.obj [])).full_html := by
  have hkept : keptEntries l = [] := by
    rw [keptEntries, List.filter_eq_nil_iff]
    intro kv hkv
    simp [hall kv hkv]
  have h2 : generate_html_breakdown (Json.obj l) =
      ⟨[], "<div class=\"summary-container\"></div>"⟩ := by
    rw [generate_obj_eq l h, hkept]
    rfl
  refine ⟨h2, ?_⟩
  rw [h2]
  decide

/-- Witness for C10 at the record with the single all-empty key "x". -/
theorem spec_C10_witness :
    (([("x", Json.str "N/A")] : List (String × Json)) ≠ [] ∧
     (∀ kv ∈ ([("x", Json.str "N/A")] : List (String × Json)),
        is_section_empty kv.2 = true)) ∧
    (generate_html_breakdown (Json.obj [("x", Json.str "N/A")]) =
        ⟨[], "<div class=\"summary-container\"></div>"⟩ ∧
     (generate_html_breakdown (Json.obj [("x", Json.str "N/A")])).full_html ≠
       (generate_html_breakdown (Json.obj [])).full_html) :=
  ⟨⟨List.cons_ne_nil _ _, by decide⟩,
   spec_C10 _ (List.cons_ne_nil _ _) (by decide)⟩
